import Mathlib

/-!
Verification of the activity ingestion and deduplication pipeline of the
lsd-clan-bot repository (files bot_activity.py, seraphsix/tasks/activity.py).

Shallow embedding: the Python functions are translated to pure Lean
functions; the external collaborators (the redis cache store, the durable
relational store, the upstream pydest service) are modelled as explicit
state values and explicit outcome parameters; Python exceptions become
Except values; machine integers do not overflow in the modelled ranges so
Nat is used for ids, counts and timestamps.
-/

namespace LsdClanBot

/-! ## Upstream exception model

Modelled from the spec: the upstream failure modes the core must recognize
(section 6: generic transient error, maintenance-mode error, private-history
error, request timeout) are modelled as distinct exception kinds. The class
hierarchy of the external pydest library is not part of this repository.
-/

inductive PydestExc
  | privateHistory
  | maintenance
  | generic
  deriving DecidableEq, Repr

/-- Errors that can escape the call wrapper execute_pydest: the seraphsix
MaintenanceError, or an upstream pydest exception re-raised unchanged. -/
inductive ExecErr
  | maintenanceError
  | upstream (e : PydestExc)
  deriving DecidableEq, Repr

/-! ## C1: execute_pydest and the shared maintenance flag
(seraphsix/tasks/activity.py lines 48-58) -/

/-- The slice of redis state read and written by execute_pydest: the value
stored under the key global-bungie-maintenance, if present. -/
structure RedisFlagState where
  maintenanceFlag : Option String
  deriving DecidableEq, Repr

/-- Python truthiness of the value returned by redis.get: None and the empty
string are falsy, any other string is truthy. -/
def pyTruthy : Option String → Bool
  | none => false
  | some s => !(s == "")

/-- Python eval applied to the stored flag value. The only value this code
base ever stores under the flag key is str(True), which evaluates to True;
any other stored literal is modelled as evaluating to False. -/
def pyEvalBool (s : String) : Bool := s == "True"

/-- Outcome of one (undecorated) invocation of execute_pydest: the returned
value or raised error, the number of times the wrapped upstream coroutine
was awaited (upstream round-trips), and the redis state afterwards. -/
structure ExecOutcome (α : Type) where
  result : Except ExecErr α
  upstreamCalls : Nat
  redis : RedisFlagState
  deriving Repr

/-- Embeds execute_pydest (activity.py lines 48-58). The wrapped coroutine
is modelled by its outcome: Except.ok a if awaiting it returns a, and
Except.error e if awaiting it raises the pydest exception e.

Code being embedded:
  is_maintenance = await redis.get(global-bungie-maintenance)
  if is_maintenance and eval(is_maintenance):
      await function
      raise MaintenanceError
  try:
      return await asyncio.create_task(function)
  except PydestMaintenanceException as e:
      await redis.set(global-bungie-maintenance, str(True), expire=60)
      raise MaintenanceError

Note that the maintenance branch awaits the wrapped coroutine (one upstream
round-trip) before raising MaintenanceError, and if that await itself
raises, the raised upstream exception escapes instead of MaintenanceError. -/
def execute_pydest {α : Type} (redis : RedisFlagState) (function : Except PydestExc α) :
    ExecOutcome α :=
  if pyTruthy redis.maintenanceFlag && pyEvalBool (redis.maintenanceFlag.getD "") then
    match function with
    | Except.error e => ⟨Except.error (ExecErr.upstream e), 1, redis⟩
    | Except.ok _ => ⟨Except.error ExecErr.maintenanceError, 1, redis⟩
  else
    match function with
    | Except.ok a => ⟨Except.ok a, 1, redis⟩
    | Except.error PydestExc.maintenance =>
        ⟨Except.error ExecErr.maintenanceError, 1, { redis with maintenanceFlag := some "True" }⟩
    | Except.error e => ⟨Except.error (ExecErr.upstream e), 1, redis⟩

/-! ## C2: GameMember conflict merge
(seraphsix/tasks/activity.py lines 307-314) -/

/-- A durable GameMember row (the fields touched by the conflict merge). -/
structure GameMemberRow where
  time_played : Nat
  completed : Bool
  deriving DecidableEq, Repr

/-- Embeds the IntegrityError branch of the GameMember upsert
(activity.py lines 309-313), which runs when a row for this
(game, member) pair already exists:

  game_member_db.time_played += player.time_played
  if not game_member_db.completed or game_member_db.completed != player.completed:
      game_member_db.completed = player.completed

The first argument is the stored row, the second the newly observed
participation of the same player in the same game. -/
def mergeGameMember (gameMemberDb player : GameMemberRow) : GameMemberRow :=
  let t := gameMemberDb.time_played + player.time_played
  let c :=
    if !gameMemberDb.completed || (gameMemberDb.completed != player.completed) then
      player.completed
    else
      gameMemberDb.completed
  ⟨t, c⟩

/-! ## Legacy flow (bot_activity.py): mode constants and mode resolution -/

def MODE_GAMBIT : Nat := 63

def MODE_RAID : Nat := 4

/-- bot_activity.py lines 29-33: control 10, clash 12, mayhem 25,
supremacy 31, doubles 50, iron banner control 43, iron banner clash 44. -/
def MODES_PVP_QUICK : List Nat := [10, 12, 25, 31, 50, 43, 44]

/-- bot_activity.py lines 35-37: survival 37, countdown 38, breakthrough 65. -/
def MODES_PVP_COMP : List Nat := [37, 38, 65]

/-- Embeds the if/elif chain of bot_activity.get_member_history
(lines 75-84) that assigns game_mode_id, composed with the isinstance
normalization of lines 86-89: the scalar cases become singleton lists.
When no branch matches, game_mode_id is never assigned and the isinstance
test at line 86 raises UnboundLocalError; that case is none here. -/
def resolveGameMode (gameMode : String) : Option (List Nat) :=
  if gameMode == "gambit" then some [ MODE_GAMBIT ]
  else if gameMode == "raid" then some [ MODE_RAID ]
  else if gameMode == "pvp" then some (MODES_PVP_COMP ++ MODES_PVP_QUICK)
  else if gameMode == "pvp-quick" then some MODES_PVP_QUICK
  else if gameMode == "pvp-comp" then some MODES_PVP_COMP
  else none

inductive PyRuntimeError
  | unboundLocal
  deriving DecidableEq, Repr

/-- External accesses made by the opening of get_member_history: the
database roster read at line 91, the subject member read at line 93, and
the upstream profile fetch at line 97. -/
inductive ExtAccess
  | dbGetMembers
  | dbGetMember (name : String)
  | upstreamGetProfile
  deriving DecidableEq, Repr

/-- Embeds bot_activity.get_member_history lines 73-97 up to the profile
fetch: the mode string is resolved first; an unrecognized string leaves
game_mode_id unassigned so the isinstance test at line 86 raises
UnboundLocalError before the roster read at line 91, the member read at
line 93 or the profile fetch at line 97 happen. The second component is
the trace of external (database or upstream) accesses performed. -/
def get_member_history_start (gameMode : String) (memberName : String) :
    Except PyRuntimeError (List Nat) × List ExtAccess :=
  match resolveGameMode gameMode with
  | none => (Except.error PyRuntimeError.unboundLocal, [])
  | some modes =>
      (Except.ok modes,
        [ExtAccess.dbGetMembers, ExtAccess.dbGetMember memberName, ExtAccess.upstreamGetProfile])

/-! ## Legacy flow durable store model (bot_activity.py, members.py layer) -/

inductive DbErr
  | integrityError
  | internalError
  | doesNotExist
  deriving DecidableEq, Repr

/-- A per (player, mode) game session counter row: running count and
last-updated timestamp (timestamps as seconds, Nat). -/
structure GameSessionRow where
  count : Nat
  last_updated : Nat
  deriving DecidableEq, Repr

/-- The durable state touched by the legacy flow: the set of Game rows
(by upstream instance id, which carries a unique constraint) and the
per (player, mode) session counter rows. -/
structure LegacyDb where
  games : List Nat
  game_sessions : List ((String × Nat) × GameSessionRow)
  deriving DecidableEq, Repr

def lookupSession (db : LegacyDb) (player : String) (modeId : Nat) :
    Option GameSessionRow :=
  (db.game_sessions.find? (fun e => e.1 == (player, modeId))).map (fun e => e.2)

def setSessionRow (entries : List ((String × Nat) × GameSessionRow))
    (key : String × Nat) (row : GameSessionRow) :
    List ((String × Nat) × GameSessionRow) :=
  entries.map (fun e => if e.1 == key then (e.1, row) else e)

/-- Modelled from the spec: the members.py database layer is not under
src/. Per sections 3 and 6 the durable store enforces a unique constraint
on the Game activity id and raises a distinguishable uniqueness violation
(IntegrityError) when a row with that id already exists; create_game
inserts the Game row (with its per-player membership rows) otherwise. -/
def create_game (db : LegacyDb) (instanceId : Nat) : Except DbErr LegacyDb :=
  if instanceId ∈ db.games then Except.error DbErr.integrityError
  else Except.ok { db with games := db.games ++ [instanceId] }

/-- Modelled from the spec: create_game_session inserts the per
(player, mode) counter row, raising a uniqueness violation when one
already exists (sections 3 and 6; members.py is not under src/). -/
def create_game_session (db : LegacyDb) (player : String) (modeId count now : Nat) :
    Except DbErr LegacyDb :=
  match lookupSession db player modeId with
  | some _ => Except.error DbErr.integrityError
  | none =>
      Except.ok { db with game_sessions := db.game_sessions ++ [((player, modeId), ⟨count, now⟩)] }

/-- Modelled from the spec: update_game_session adds to the per
(player, mode) running count and touches its last-updated timestamp,
raising not-found (DoesNotExist) when the row does not exist (sections 3
and 6; members.py is not under src/). -/
def update_game_session (db : LegacyDb) (player : String) (modeId count now : Nat) :
    Except DbErr LegacyDb :=
  match lookupSession db player modeId with
  | none => Except.error DbErr.doesNotExist
  | some s =>
      Except.ok { db with
        game_sessions := setSessionRow db.game_sessions (player, modeId) ⟨s.count + count, now⟩ }

/-- Trace entry for a session-counter call issued by the legacy flow. -/
inductive SessionCall
  | createSession (player : String) (modeId count : Nat)
  | updateSession (player : String) (modeId count : Nat)
  deriving DecidableEq, Repr

def sessionCallCount : SessionCall → Nat
  | SessionCall.createSession _ _ n => n
  | SessionCall.updateSession _ _ n => n

/-- Embeds the per-player body of bot_activity.get_member_history
lines 167-178:

  try:
      await database.create_game_session(player, (game_mode_id, count 1))
  except (IntegrityError, InternalError):
      await database.update_game_session(player, mode_id, 1)
  mode_count += 1

Returns the new store plus the trace of session calls issued. An error of
the inner update (not caught in the Python) propagates. -/
def storePlayerSession (db : LegacyDb) (player : String) (modeId now : Nat) :
    Except DbErr (LegacyDb × List SessionCall) :=
  match create_game_session db player modeId 1 now with
  | Except.ok db1 => Except.ok (db1, [SessionCall.createSession player modeId 1])
  | Except.error DbErr.integrityError =>
      (update_game_session db player modeId 1 now).map
        (fun db1 =>
          (db1, [SessionCall.createSession player modeId 1,
                 SessionCall.updateSession player modeId 1]))
  | Except.error DbErr.internalError =>
      (update_game_session db player modeId 1 now).map
        (fun db1 =>
          (db1, [SessionCall.createSession player modeId 1,
                 SessionCall.updateSession player modeId 1]))
  | Except.error e => Except.error e

/-- The loop of lines 167-178 over all qualifying players of one game;
also returns the mode_count increment (one per player, line 178). -/
def storePlayersSessions (db : LegacyDb) (players : List String) (modeId now : Nat) :
    Except DbErr (LegacyDb × Nat × List SessionCall) :=
  match players with
  | [] => Except.ok (db, 0, [])
  | p :: rest =>
      match storePlayerSession db p modeId now with
      | Except.error e => Except.error e
      | Except.ok (db1, calls1) =>
          match storePlayersSessions db1 rest modeId now with
          | Except.error e => Except.error e
          | Except.ok (db2, n, calls2) => Except.ok (db2, n + 1, calls1 ++ calls2)

/-- Embeds bot_activity.get_member_history lines 160-178, the storage step
for one eligible activity:

  try:
      await database.create_game(game_details, players)
  except IntegrityError:
      pass
  else:
      (per-player session loop, mode_count increments)

On a uniqueness violation the exception is swallowed (pass) and the else
block, the membership/session step, is skipped entirely. Returns the new
store, the mode_count increment and the session call trace. -/
def storeActivityLegacy (db : LegacyDb) (instanceId : Nat) (players : List String)
    (modeId now : Nat) : Except DbErr (LegacyDb × Nat × List SessionCall) :=
  match create_game db instanceId with
  | Except.error DbErr.integrityError => Except.ok (db, 0, [])
  | Except.error e => Except.error e
  | Except.ok db1 => storePlayersSessions db1 players modeId now

/-- Bool test: did a run of the storage step perform any membership/session
write for the match (was the else block of lines 164-178 reached)? -/
def membershipStepPerformed (r : Except DbErr (LegacyDb × Nat × List SessionCall)) : Bool :=
  match r with
  | Except.ok (_, _, calls) => !calls.isEmpty
  | Except.error _ => false

/-- Sequences the storage step over the eligible activities found in one
mode pass (the outer loops of lines 116-158 fetch and filter upstream
activities; which activities qualify, and their filtered player lists, are
external inputs here). -/
def storeActivitiesLegacy (db : LegacyDb) (acts : List (Nat × List String))
    (modeId now : Nat) : Except DbErr (LegacyDb × Nat × List SessionCall) :=
  match acts with
  | [] => Except.ok (db, 0, [])
  | (i, ps) :: rest =>
      match storeActivityLegacy db i ps modeId now with
      | Except.error e => Except.error e
      | Except.ok (db1, n1, c1) =>
          match storeActivitiesLegacy db1 rest modeId now with
          | Except.error e => Except.error e
          | Except.ok (db2, n2, c2) => Except.ok (db2, n1 + n2, c1 ++ c2)

/-- Result of one per-mode pass of the legacy flow: store afterwards, the
amount added to total_game_count, and the session call trace. -/
structure ModeOutcome where
  db : LegacyDb
  totalInc : Nat
  calls : List SessionCall
  deriving DecidableEq, Repr

/-- Embeds the tail of the per-mode loop body, bot_activity lines 111-188
after the freshness shortcut: process the activities, then

  total_game_count += mode_count
  try:
      await database.update_game_session(member_name, mode_id, 0)
  except DoesNotExist:
      continue

The final update with count 0 touches the last-updated timestamp; its
DoesNotExist failure is absorbed (continue at the end of the loop body is
normal loop continuation). -/
def processModeBodyLegacy (db : LegacyDb) (memberName : String) (modeId now : Nat)
    (acts : List (Nat × List String)) : Except DbErr ModeOutcome :=
  match storeActivitiesLegacy db acts modeId now with
  | Except.error e => Except.error e
  | Except.ok (db1, modeCount, calls) =>
      match update_game_session db1 memberName modeId 0 now with
      | Except.ok db2 =>
          Except.ok ⟨db2, modeCount, calls ++ [SessionCall.updateSession memberName modeId 0]⟩
      | Except.error DbErr.doesNotExist =>
          Except.ok ⟨db1, modeCount, calls ++ [SessionCall.updateSession memberName modeId 0]⟩
      | Except.error e => Except.error e

/-- Embeds one iteration of the per-mode loop of get_member_history
(lines 101-188) including the freshness shortcut of lines 102-109:

  try:
      game_session = await database.get_game_session(member_name, mode_id)
  except DoesNotExist:
      pass
  else:
      if game_session.last_updated > (now - 1 hour) and check_date:
          total_game_count += game_session.count
          continue

A mode whose counter row was refreshed within the last hour (3600 s) is
skipped entirely, its stored count reused. -/
def processModeLegacy (db : LegacyDb) (memberName : String) (modeId now : Nat)
    (checkDate : Bool) (acts : List (Nat × List String)) : Except DbErr ModeOutcome :=
  match lookupSession db memberName modeId with
  | some s =>
      if decide (now - 3600 < s.last_updated) && checkDate then
        Except.ok ⟨db, s.count, []⟩
      else
        processModeBodyLegacy db memberName modeId now acts
  | none => processModeBodyLegacy db memberName modeId now acts

/-- The freshness shortcut condition of lines 102-109 in isolation. -/
def freshSkipLegacy (db : LegacyDb) (memberName : String) (modeId now : Nat)
    (checkDate : Bool) : Bool :=
  match lookupSession db memberName modeId with
  | some s => decide (now - 3600 < s.last_updated) && checkDate
  | none => false

/-! ## Result cache reads (seraphsix/tasks/activity.py lines 61-117) -/

/-- An opaque serialized cache value: either the pickle serialization of a
value or stored bytes that fail to deserialize. -/
inductive Blob (α : Type)
  | pickled (a : α)
  | corrupt
  deriving DecidableEq, Repr

/-- Errors seen by callers of the cache-fronted accessors: a pickle
deserialization failure, or an error propagated from execute_pydest. -/
inductive PyError
  | unpicklingError
  | execError (e : ExecErr)
  deriving DecidableEq, Repr

/-- pickle.loads: returns the value for a well-formed blob and raises for a
corrupt one. -/
def pickleLoads {α : Type} : Blob α → Except PyError α
  | Blob.pickled a => Except.ok a
  | Blob.corrupt => Except.error PyError.unpicklingError

/-- Outcome of one cache-fronted read: the value returned or error raised,
and how many upstream calls were made. -/
structure GetDataOutcome (α : Type) where
  result : Except PyError α
  upstreamCalls : Nat
  deriving Repr

/-- Embeds get_data (activity.py lines 61-67):

  redis_data = await redis.get(key)
  if redis_data:
      data = pickle.loads(redis_data)
  else:
      data = await execute_pydest(function, redis)
  return data

cached is the blob stored under the requested key, if any; the outcome of
the execute_pydest call (embedded in full above) is abstracted into the
upstream parameter here, and the count of upstream calls is recorded.
pickle.loads is not guarded by any try block: its failure propagates. -/
def get_data {α : Type} (cached : Option (Blob α)) (upstream : Except ExecErr α) :
    GetDataOutcome α :=
  match cached with
  | some blob =>
      match pickleLoads blob with
      | Except.ok a => ⟨Except.ok a, 0⟩
      | Except.error e => ⟨Except.error e, 0⟩
  | none =>
      match upstream with
      | Except.ok a => ⟨Except.ok a, 1⟩
      | Except.error e => ⟨Except.error (PyError.execError e), 1⟩

def cacheGet {α : Type} (entries : List (String × Blob α)) (key : String) :
    Option (Blob α) :=
  (entries.find? (fun e => e.1 == key)).map (fun e => e.2)

/-- redis.set with a TTL: liveness of an entry is modelled as presence. -/
def cacheSet {α : Type} (entries : List (String × Blob α)) (key : String) (b : Blob α) :
    List (String × Blob α) :=
  (entries.filter (fun e => !(e.1 == key))) ++ [(key, b)]

/-- Embeds get_pgcr (activity.py lines 94-104): key scoped to the activity
id; a present blob goes through unguarded pickle.loads; on a miss the
match report from one upstream call is cached (set_data failures are
swallowed and the default one-hour TTL is modelled as entry presence). -/
def get_pgcr {α : Type} (entries : List (String × Blob α)) (activityId : Nat)
    (upstream : Except ExecErr α) : GetDataOutcome α × List (String × Blob α) :=
  match cacheGet entries (toString activityId ++ "-pcgr") with
  | some blob =>
      match pickleLoads blob with
      | Except.ok a => (⟨Except.ok a, 0⟩, entries)
      | Except.error e => (⟨Except.error e, 0⟩, entries)
  | none =>
      match upstream with
      | Except.ok a =>
          (⟨Except.ok a, 1⟩, cacheSet entries (toString activityId ++ "-pcgr") (Blob.pickled a))
      | Except.error e => (⟨Except.error (PyError.execError e), 1⟩, entries)

/-- The cache key used by get_activity_history (activity.py line 79):
derived from the member id only. -/
def activityHistoryKey (memberId : Nat) : String :=
  toString memberId ++ "-activity-history"

/-- Embeds get_activity_history (activity.py lines 78-91). The upstream
list-activity-history call is modelled by the upstream function of the
platform id, member id, character id, mode id and count; Except.ok none
models a response whose Response dict lacks an activities field (the
KeyError branch returns None and caches nothing). On a cache miss with a
well-formed response the activities list is cached under the member-only
key (45 minute TTL, modelled as presence). Activity entries are reduced to
their instance ids (Nat). -/
def get_activity_history (entries : List (String × Blob (List Nat)))
    (upstream : Nat → Nat → Nat → Nat → Nat → Except ExecErr (Option (List Nat)))
    (platformId memberId charId modeId count : Nat) :
    Except PyError (Option (List Nat)) × List (String × Blob (List Nat)) :=
  match cacheGet entries (activityHistoryKey memberId) with
  | some blob =>
      match pickleLoads blob with
      | Except.ok acts => (Except.ok (some acts), entries)
      | Except.error e => (Except.error e, entries)
  | none =>
      match upstream platformId memberId charId modeId count with
      | Except.error e => (Except.error (PyError.execError e), entries)
      | Except.ok none => (Except.ok none, entries)
      | Except.ok (some acts) =>
          (Except.ok (some acts), cacheSet entries (activityHistoryKey memberId) (Blob.pickled acts))

/-! ## Retry decorator stack on execute_pydest (activity.py lines 40-47) -/

/-- Exception kinds relevant to the retry decorator stack: the upstream
pydest failure modes plus asyncio.TimeoutError and the rate limiter
RateLimitException. Modelled from the spec: section 6 lists the failure
modes the core must recognize as distinct conditions; the class hierarchy
of the external pydest library is not part of this repository. -/
inductive RetryExcKind
  | privateHistory
  | maintenance
  | genericPydest
  | timeoutError
  | rateLimit
  deriving DecidableEq, Repr

/-- One backoff.on_exception layer: the predicate of exception kinds it
catches, and the total number of attempts of its wrapped callable it
performs when the exception matches persistently. For a max_tries=n layer
that number is exactly n (backoff counts the initial call as a try). For
a max_time=10 layer it is the number of attempts the ten-second budget
admits; it is kept abstract because backoff jitters its waits, but it is
at least 2: the first failure lands well inside the budget, so at least
one retry occurs. -/
structure RetryPolicy where
  catches : RetryExcKind → Bool
  attemptBudget : Nat

/-- Total number of runs of the underlying function when every run raises
exception kind k, for a stack of backoff layers listed outermost first: a
layer that catches k performs its attempt budget worth of runs of the
inner stack, any other layer is transparent to k. -/
def chainAttempts : List RetryPolicy → RetryExcKind → Nat
  | [], _ => 1
  | p :: rest, k => (if p.catches k then p.attemptBudget else 1) * chainAttempts rest k

/-- Embeds the decorator stack on execute_pydest (activity.py lines
40-47), outermost first:

  backoff.on_exception(expo, (PydestPrivateHistoryException, PydestMaintenanceException), max_tries=1)
  backoff.on_exception(expo, PydestException, max_time=10)
  backoff.on_exception(expo, asyncio.TimeoutError, max_tries=1)
  backoff.on_exception(expo, RateLimitException, max_time=10)
  limits(calls=25, period=1)

The limits layer is not a retry policy (it raises RateLimitException when
the quota is exceeded) and is not part of the stack here. genericBudget
and rateLimitBudget are the attempt counts the two ten-second max_time
layers admit against a persistent failure. -/
def execute_pydest_policies (genericBudget rateLimitBudget : Nat) : List RetryPolicy :=
  [ ⟨fun k => k == RetryExcKind.privateHistory || k == RetryExcKind.maintenance, 1⟩,
    ⟨fun k => k == RetryExcKind.genericPydest, genericBudget⟩,
    ⟨fun k => k == RetryExcKind.timeoutError, 1⟩,
    ⟨fun k => k == RetryExcKind.rateLimit, rateLimitBudget⟩ ]

/-! ## Eligibility and Game persistence in the new flow
(seraphsix/tasks/activity.py lines 272-289) -/

/-- The fields of a ClanGame derived from one post-game carnage report
that the eligibility test and Game persistence read: match date, mode id,
upstream instance id, and the tracked clan players found in the report
(by membership id). Timestamps are seconds as Nat. -/
structure ClanGameRec where
  date : Nat
  mode_id : Nat
  instance_id : Nat
  clan_players : List Nat
  deriving DecidableEq, Repr

/-- The four bounds the eligibility test compares against: the per-mode
threshold from MODE_MAP, the fixed Forsaken release cutoff, the
configurable organization-wide cutoff (bot.config.activity_cutoff) and the
subject member join date. -/
structure EligibilityConfig where
  threshold : Nat
  forsakenRelease : Nat
  activityCutoff : Nat
  joinDate : Nat
  deriving DecidableEq, Repr

/-- Embeds the skip condition of store_member_history lines 276-280:

  if (len(game.clan_players) < game_mode_details['threshold'] or
          game.date < constants.FORSAKEN_RELEASE or
          game.date < bot.config.activity_cutoff or
          game.date < member_db.clanmember.join_date):
      continue
-/
def gameIneligible (cfg : EligibilityConfig) (g : ClanGameRec) : Bool :=
  decide (g.clan_players.length < cfg.threshold)
    || decide (g.date < cfg.forsakenRelease)
    || decide (g.date < cfg.activityCutoff)
    || decide (g.date < cfg.joinDate)

/-- The Game table of the new flow, by upstream instance id (unique). -/
structure ModernDb where
  games : List Nat
  deriving DecidableEq, Repr

/-- Embeds the per-match Game persistence of store_member_history lines
272-289: the skip condition, then

  try:
      game_db = await bot.database.get(Game, instance_id=game.instance_id)
  except DoesNotExist:
      game_db = await bot.database.create(Game, ...)
      mode_count += 1

Returns the store afterwards and the mode_count increment. The subsequent
ClanGame and GameMember steps (lines 291-314) write no Game rows; the
GameMember conflict merge is embedded separately as mergeGameMember. -/
def storeMatchModern (db : ModernDb) (cfg : EligibilityConfig) (g : ClanGameRec) :
    ModernDb × Nat :=
  if gameIneligible cfg g then (db, 0)
  else if g.instance_id ∈ db.games then (db, 0)
  else (⟨db.games ++ [g.instance_id]⟩, 1)

/-! ## Fan-out orchestrator (seraphsix/tasks/activity.py lines 316-356) -/

/-- Embeds the return of store_member_history (lines 316-319):

  if mode_count:
      logging.debug(...)
      return mode_count

the found count is returned only when nonzero; otherwise the coroutine
falls off the end and returns None. -/
def storeMemberHistoryReturn (modeCount : Nat) : Option Nat :=
  if modeCount != 0 then some modeCount else none

/-- What store_all_games produces: the summary count it logs and the value
it returns to its caller. -/
structure StoreAllGamesOutcome where
  loggedSum : Nat
  returned : Option Nat
  deriving DecidableEq, Repr

/-- Embeds the tail of store_all_games (activity.py lines 351-356):

  results = await asyncio.gather(*tasks)
  logging.info(f"Found \x7bsum(filter(None, results))\x7d ... games ...")

gather waits for every per-member unit; each unit result is the
Option-valued return of store_member_history, parametrized here by the
count of Game rows that unit created (a unit that aborts early created
none and returns None, like a unit whose count is zero). filter(None, ...)
drops the None results. The function body ends after logging.info, so
store_all_games itself returns None. -/
def store_all_games (unitCounts : List Nat) : StoreAllGamesOutcome :=
  ⟨((unitCounts.map storeMemberHistoryReturn).filterMap id).sum, none⟩

/-- Recognizer for the freshness touch call: an update_game_session call
for the given player and mode with count 0. -/
def isZeroTouch (memberName : String) (modeId : Nat) : SessionCall → Bool
  | SessionCall.updateSession p m n => p == memberName && m == modeId && n == 0
  | SessionCall.createSession _ _ _ => false

/-- How many times a trace touches the (player, mode) timestamp with a
count of 0. -/
def zeroTouchCount (calls : List SessionCall) (memberName : String) (modeId : Nat) : Nat :=
  (calls.filter (isZeroTouch memberName modeId)).length

end LsdClanBot

namespace LsdClanBot

/-! # Theorems -/

/-- C1 (code_bug evidence): with the shared maintenance flag set (redis
holds the string True under the flag key, exactly what the code itself
stores) and an upstream coroutine that would succeed, execute_pydest does
raise MaintenanceError, but only after performing one upstream round-trip:
the upstream call count is 1, not 0 as the claim (calls are skipped, no
upstream round-trip occurs) requires. -/
theorem execute_pydest_maintenance_flag_still_calls_upstream :
    (execute_pydest ⟨some "True"⟩ (Except.ok (42 : Nat))).result
        = Except.error ExecErr.maintenanceError ∧
    (execute_pydest ⟨some "True"⟩ (Except.ok (42 : Nat))).upstreamCalls = 1 :=
  ⟨rfl, rfl⟩

/-- C10: for every game_mode string outside the five recognized ones
(gambit, raid, pvp, pvp-quick, pvp-comp), get_member_history raises an
unhandled UnboundLocalError (the game_mode_id variable is never assigned
before the isinstance test) and no database or upstream access occurs. -/
theorem get_member_history_unknown_mode (s memberName : String)
    (h : s ∉ ["gambit", "raid", "pvp", "pvp-quick", "pvp-comp"]) :
    get_member_history_start s memberName = (Except.error PyRuntimeError.unboundLocal, []) := by
  simp only [List.mem_cons, List.not_mem_nil, or_false, not_or] at h
  obtain ⟨h1, h2, h3, h4, h5⟩ := h
  unfold get_member_history_start resolveGameMode
  simp [h1, h2, h3, h4, h5]

theorem get_member_history_unknown_mode_witness :
    "patrol" ∉ ["gambit", "raid", "pvp", "pvp-quick", "pvp-comp"] ∧
    get_member_history_start "patrol" "alice"
      = (Except.error PyRuntimeError.unboundLocal, []) :=
  ⟨by decide, get_member_history_unknown_mode "patrol" "alice" (by decide)⟩

/-- C3 counterexample: with the Game row for activity id 7 already in the
durable store, the legacy storage step catches the uniqueness violation
from create_game (the run ends without error and the store is unchanged)
but the membership/session step is skipped, not proceeded to: no session
call is issued for the qualifying player alice, refuting the claim that
processing proceeds to the membership step for that match. -/
theorem storeActivityLegacy_conflict_counterexample :
    storeActivityLegacy ⟨[7], []⟩ 7 ["alice"] 4 100 = Except.ok (⟨[7], []⟩, 0, []) ∧
    membershipStepPerformed (storeActivityLegacy ⟨[7], []⟩ 7 ["alice"] 4 100) = false :=
  ⟨rfl, rfl⟩

/-- C3 amended: in the legacy flow, a uniqueness violation raised by the
durable store when creating the Game row is caught and treated as already
exists and is never propagated out of the storage step, but processing
then skips the membership/session step for that match (store unchanged,
mode_count increment 0, no session calls) rather than proceeding to it. -/
theorem storeActivityLegacy_conflict_absorbed (db : LegacyDb) (instanceId : Nat)
    (players : List String) (modeId now : Nat) (h : instanceId ∈ db.games) :
    storeActivityLegacy db instanceId players modeId now = Except.ok (db, 0, []) := by
  have hcg : create_game db instanceId = Except.error DbErr.integrityError := by
    unfold create_game
    rw [if_pos h]
  unfold storeActivityLegacy
  rw [hcg]

theorem storeActivityLegacy_conflict_absorbed_witness :
    7 ∈ (⟨[7], []⟩ : LegacyDb).games ∧
    storeActivityLegacy ⟨[7], []⟩ 7 ["bob"] 4 100 = Except.ok (⟨[7], []⟩, 0, []) :=
  ⟨by decide, storeActivityLegacy_conflict_absorbed ⟨[7], []⟩ 7 ["bob"] 4 100 (by decide)⟩

/-- Helper: the per-player session write of the legacy flow never raises:
create_game_session fails only when the row exists, in which case the
caught branch runs update_game_session, which succeeds on that same row.
Every call it issues carries count 1. -/
theorem storePlayerSession_spec (db : LegacyDb) (p : String) (m now : Nat) :
    ∃ db1 calls, storePlayerSession db p m now = Except.ok (db1, calls) ∧
      ∀ c ∈ calls, sessionCallCount c = 1 := by
  cases h : lookupSession db p m with
  | none =>
      refine ⟨{ db with game_sessions := db.game_sessions ++ [((p, m), ⟨1, now⟩)] },
        [SessionCall.createSession p m 1], ?_, ?_⟩
      · simp only [storePlayerSession, create_game_session, h]
      · intro c hc
        simp only [List.mem_singleton] at hc
        subst hc
        rfl
  | some s =>
      refine ⟨{ db with game_sessions := setSessionRow db.game_sessions (p, m) ⟨s.count + 1, now⟩ },
        [SessionCall.createSession p m 1, SessionCall.updateSession p m 1], ?_, ?_⟩
      · simp only [storePlayerSession, create_game_session, update_game_session, h, Except.map]
      · intro c hc
        simp only [List.mem_cons, List.not_mem_nil, or_false, List.mem_singleton] at hc
        rcases hc with hc | hc <;> (subst hc; rfl)

/-- Helper: the per-player loop over all qualifying players never raises
and issues only count-1 session calls. -/
theorem storePlayersSessions_spec (players : List String) (db : LegacyDb) (m now : Nat) :
    ∃ db2 n calls, storePlayersSessions db players m now = Except.ok (db2, n, calls) ∧
      ∀ c ∈ calls, sessionCallCount c = 1 := by
  induction players generalizing db with
  | nil =>
      exact ⟨db, 0, [], rfl, by intro c hc; simp at hc⟩
  | cons p rest ih =>
      obtain ⟨db1, calls1, h1, hc1⟩ := storePlayerSession_spec db p m now
      obtain ⟨db2, n, calls2, h2, hc2⟩ := ih db1
      refine ⟨db2, n + 1, calls1 ++ calls2, ?_, ?_⟩
      · simp only [storePlayersSessions, h1, h2]
      · intro c hc
        rcases List.mem_append.mp hc with hc | hc
        · exact hc1 c hc
        · exact hc2 c hc

/-- Helper: the storage step for one activity never raises and issues only
count-1 session calls. -/
theorem storeActivityLegacy_spec (db : LegacyDb) (i : Nat) (ps : List String) (m now : Nat) :
    ∃ db2 n calls, storeActivityLegacy db i ps m now = Except.ok (db2, n, calls) ∧
      ∀ c ∈ calls, sessionCallCount c = 1 := by
  by_cases h : i ∈ db.games
  · refine ⟨db, 0, [], ?_, ?_⟩
    · exact storeActivityLegacy_conflict_absorbed db i ps m now h
    · intro c hc
      simp at hc
  · have hcg : create_game db i = Except.ok { db with games := db.games ++ [i] } := by
      unfold create_game
      rw [if_neg h]
    obtain ⟨db2, n, calls, h2, hc2⟩ :=
      storePlayersSessions_spec ps { db with games := db.games ++ [i] } m now
    refine ⟨db2, n, calls, ?_, hc2⟩
    simp only [storeActivityLegacy, hcg, h2]

/-- Helper: the storage step over a whole list of found activities never
raises and issues only count-1 session calls. -/
theorem storeActivitiesLegacy_spec (acts : List (Nat × List String)) (db : LegacyDb)
    (m now : Nat) :
    ∃ db2 n calls, storeActivitiesLegacy db acts m now = Except.ok (db2, n, calls) ∧
      ∀ c ∈ calls, sessionCallCount c = 1 := by
  induction acts generalizing db with
  | nil =>
      exact ⟨db, 0, [], rfl, by intro c hc; simp at hc⟩
  | cons a rest ih =>
      obtain ⟨db1, n1, calls1, h1, hc1⟩ := storeActivityLegacy_spec db a.1 a.2 m now
      obtain ⟨db2, n2, calls2, h2, hc2⟩ := ih db1
      refine ⟨db2, n1 + n2, calls1 ++ calls2, ?_, ?_⟩
      · simp only [storeActivitiesLegacy, h1, h2]
      · intro c hc
        rcases List.mem_append.mp hc with hc | hc
        · exact hc1 c hc
        · exact hc2 c hc

/-- Helper: a call carrying count 1 is not a zero touch. -/
theorem isZeroTouch_eq_false (mn : String) (m : Nat) (c : SessionCall)
    (h : sessionCallCount c = 1) : isZeroTouch mn m c = false := by
  cases c with
  | createSession p mm n => rfl
  | updateSession p mm n =>
      simp only [sessionCallCount] at h
      subst h
      simp [isZeroTouch]

/-- Helper: a trace of count-1 calls contains no zero touch. -/
theorem zeroTouchCount_eq_zero (calls : List SessionCall) (mn : String) (m : Nat)
    (h : ∀ c ∈ calls, sessionCallCount c = 1) : zeroTouchCount calls mn m = 0 := by
  unfold zeroTouchCount
  rw [List.length_eq_zero]
  rw [List.filter_eq_nil_iff]
  intro c hc
  rw [isZeroTouch_eq_false mn m c (h c hc)]
  simp

theorem zeroTouchCount_append (a b : List SessionCall) (mn : String) (m : Nat) :
    zeroTouchCount (a ++ b) mn m = zeroTouchCount a mn m + zeroTouchCount b mn m := by
  unfold zeroTouchCount
  rw [List.filter_append, List.length_append]

/-- C8: for every mode pass of the legacy flow that is not cut short by the
one-hour freshness shortcut, the per-(player, mode) last-updated timestamp
of the subject member is touched by an update with count 0 exactly once,
whatever activities were found (including none): all other session calls
of the pass carry count 1. The pass always completes without a raised
error, so in particular when the counter row does not exist the failed
final update (DoesNotExist) is absorbed rather than propagated. -/
theorem processModeLegacy_touches_once (db : LegacyDb) (memberName : String)
    (modeId now : Nat) (acts : List (Nat × List String))
    (hNotFresh : freshSkipLegacy db memberName modeId now true = false) :
    ∃ out, processModeLegacy db memberName modeId now true acts = Except.ok out ∧
      zeroTouchCount out.calls memberName modeId = 1 := by
  obtain ⟨db1, n, calls, hA, hcnt⟩ := storeActivitiesLegacy_spec acts db modeId now
  have hzero : zeroTouchCount calls memberName modeId = 0 :=
    zeroTouchCount_eq_zero calls memberName modeId hcnt
  have hone :
      zeroTouchCount (calls ++ [SessionCall.updateSession memberName modeId 0])
        memberName modeId = 1 := by
    rw [zeroTouchCount_append, hzero]
    unfold zeroTouchCount
    simp [isZeroTouch]
  have hbody : ∃ out, processModeBodyLegacy db memberName modeId now acts = Except.ok out ∧
      out.calls = calls ++ [SessionCall.updateSession memberName modeId 0] := by
    cases hl : lookupSession db1 memberName modeId with
    | none =>
        have hu : update_game_session db1 memberName modeId 0 now
            = Except.error DbErr.doesNotExist := by
          unfold update_game_session
          rw [hl]
        refine ⟨⟨db1, n, calls ++ [SessionCall.updateSession memberName modeId 0]⟩, ?_, rfl⟩
        simp only [processModeBodyLegacy, hA, hu]
    | some s =>
        have hu : update_game_session db1 memberName modeId 0 now
            = Except.ok { db1 with
                game_sessions :=
                  setSessionRow db1.game_sessions (memberName, modeId) ⟨s.count + 0, now⟩ } := by
          unfold update_game_session
          rw [hl]
        refine ⟨⟨{ db1 with
            game_sessions :=
              setSessionRow db1.game_sessions (memberName, modeId) ⟨s.count + 0, now⟩ },
          n, calls ++ [SessionCall.updateSession memberName modeId 0]⟩, ?_, rfl⟩
        simp only [processModeBodyLegacy, hA, hu]
  obtain ⟨out, hout, hcalls⟩ := hbody
  cases hl0 : lookupSession db memberName modeId with
  | none =>
      refine ⟨out, ?_, by rw [hcalls]; exact hone⟩
      simp only [processModeLegacy, hl0]
      exact hout
  | some s =>
      have hcond : (decide (now - 3600 < s.last_updated) && true) = false := by
        have hthis := hNotFresh
        unfold freshSkipLegacy at hthis
        rw [hl0] at hthis
        exact hthis
      refine ⟨out, ?_, by rw [hcalls]; exact hone⟩
      simp only [processModeLegacy, hl0, hcond, Bool.false_eq_true, if_false]
      exact hout

theorem processModeLegacy_touches_once_witness :
    freshSkipLegacy ⟨[], []⟩ "carol" 4 5000 true = false ∧
    (∃ out, processModeLegacy ⟨[], []⟩ "carol" 4 5000 true [] = Except.ok out ∧
      zeroTouchCount out.calls "carol" 4 = 1) :=
  ⟨by decide, processModeLegacy_touches_once ⟨[], []⟩ "carol" 4 5000 [] (by decide)⟩

/-- C4 counterexample: a run whose single per-member unit created 2 new
Game rows. The claim says the orchestrator returns an integer equal to the
sum over units (here 2); store_all_games ends after logging the sum, so it
returns None, not that integer. -/
theorem store_all_games_counterexample :
    (store_all_games [2]).returned ≠ some 2 := by decide

/-- Helper for C4: the sum of the non-None unit results equals the sum of
the per-unit created counts (a unit with count 0 returns None and is
dropped by filter, contributing 0). -/
theorem filterMap_return_sum (l : List Nat) :
    ((l.map storeMemberHistoryReturn).filterMap id).sum = l.sum := by
  induction l with
  | nil => rfl
  | cons c rest ih =>
      by_cases h : c = 0
      · subst h
        rw [List.map_cons, List.filterMap_cons]
        show (List.filterMap id (List.map storeMemberHistoryReturn rest)).sum
          = (0 :: rest).sum
        rw [ih, List.sum_cons, Nat.zero_add]
      · have hc : storeMemberHistoryReturn c = some c := by
          simp [storeMemberHistoryReturn, h]
        rw [List.map_cons, List.filterMap_cons, hc]
        show (c :: List.filterMap id (List.map storeMemberHistoryReturn rest)).sum
          = (c :: rest).sum
        rw [List.sum_cons, List.sum_cons, ih]

/-- C4 amended: store_all_games waits for all per-member units (gather)
and logs a summary count equal to the sum over all units of the number of
newly created Game rows (units that created none return None and
contribute nothing), but it does not return that integer: the function
returns None. -/
theorem store_all_games_logs_sum_returns_none (unitCounts : List Nat) :
    (store_all_games unitCounts).loggedSum = unitCounts.sum ∧
    (store_all_games unitCounts).returned = none :=
  ⟨filterMap_return_sum unitCounts, rfl⟩

/-- C5: against the decorator stack of execute_pydest, a persistent
private-history error and a persistent timeout each cause exactly one
attempt of the underlying call (their max_tries=1 layers allow no retry,
so they are retried at most once, in fact zero times, before surfacing),
while a persistent generic upstream exception is attempted as many times
as the bounded ten-second budget admits, at least twice. The one attempt
for private history is independent of the generic budget: the one-shot
policy applies instead of, not in addition to, the ten-second policy. -/
theorem execute_pydest_retry_policy (genericBudget rateLimitBudget : Nat)
    (hBudget : 2 ≤ genericBudget) :
    chainAttempts (execute_pydest_policies genericBudget rateLimitBudget)
        RetryExcKind.privateHistory = 1 ∧
    chainAttempts (execute_pydest_policies genericBudget rateLimitBudget)
        RetryExcKind.timeoutError = 1 ∧
    chainAttempts (execute_pydest_policies genericBudget rateLimitBudget)
        RetryExcKind.genericPydest = genericBudget ∧
    2 ≤ chainAttempts (execute_pydest_policies genericBudget rateLimitBudget)
        RetryExcKind.genericPydest := by
  have hg : chainAttempts (execute_pydest_policies genericBudget rateLimitBudget)
      RetryExcKind.genericPydest = genericBudget := by
    simp [chainAttempts, execute_pydest_policies]
  refine ⟨?_, ?_, hg, ?_⟩
  · simp [chainAttempts, execute_pydest_policies]
  · simp [chainAttempts, execute_pydest_policies]
  · rw [hg]
    exact hBudget

theorem execute_pydest_retry_policy_witness :
    2 ≤ 5 ∧
    (chainAttempts (execute_pydest_policies 5 5) RetryExcKind.privateHistory = 1 ∧
      chainAttempts (execute_pydest_policies 5 5) RetryExcKind.timeoutError = 1 ∧
      chainAttempts (execute_pydest_policies 5 5) RetryExcKind.genericPydest = 5 ∧
      2 ≤ chainAttempts (execute_pydest_policies 5 5) RetryExcKind.genericPydest) :=
  ⟨by decide, execute_pydest_retry_policy 5 5 (by decide)⟩

/-- Helper for C6: the skip condition is false exactly when all four
qualification bounds hold. -/
theorem gameIneligible_eq_false_iff (cfg : EligibilityConfig) (g : ClanGameRec) :
    gameIneligible cfg g = false ↔
      (cfg.threshold ≤ g.clan_players.length ∧ cfg.forsakenRelease ≤ g.date ∧
        cfg.activityCutoff ≤ g.date ∧ cfg.joinDate ≤ g.date) := by
  simp [gameIneligible, not_lt, and_assoc]

/-- C6: for a fetched match report whose Game row is not already in the
durable store, a Game row is written (and counted) if and only if all four
conditions hold: tracked participant count at or above the mode threshold,
match date at or after the Forsaken release cutoff, at or after the
configured organization cutoff, and at or after the subject member join
date; when any condition fails the store is untouched and nothing is
counted. -/
theorem storeMatchModern_eligibility (db : ModernDb) (cfg : EligibilityConfig)
    (g : ClanGameRec) (hAbsent : g.instance_id ∉ db.games) :
    (storeMatchModern db cfg g = (⟨db.games ++ [g.instance_id]⟩, 1) ↔
      (cfg.threshold ≤ g.clan_players.length ∧ cfg.forsakenRelease ≤ g.date ∧
        cfg.activityCutoff ≤ g.date ∧ cfg.joinDate ≤ g.date)) ∧
    ((g.clan_players.length < cfg.threshold ∨ g.date < cfg.forsakenRelease ∨
        g.date < cfg.activityCutoff ∨ g.date < cfg.joinDate) →
      storeMatchModern db cfg g = (db, 0)) := by
  cases hi : gameIneligible cfg g with
  | false =>
      have hE := (gameIneligible_eq_false_iff cfg g).mp hi
      have hstep : storeMatchModern db cfg g = (⟨db.games ++ [g.instance_id]⟩, 1) := by
        unfold storeMatchModern
        rw [hi]
        simp only [Bool.false_eq_true, if_false]
        rw [if_neg hAbsent]
      constructor
      · exact iff_of_true hstep hE
      · intro hlt
        exfalso
        obtain ⟨e1, e2, e3, e4⟩ := hE
        rcases hlt with hlt | hlt | hlt | hlt <;> omega
  | true =>
      have hstep : storeMatchModern db cfg g = (db, 0) := by
        unfold storeMatchModern
        rw [hi]
        simp
      constructor
      · constructor
        · intro heq
          exfalso
          rw [hstep] at heq
          have h01 : (0 : Nat) = 1 := congrArg Prod.snd heq
          exact Nat.zero_ne_one h01
        · intro hE
          exfalso
          have hfalse : gameIneligible cfg g = false :=
            (gameIneligible_eq_false_iff cfg g).mpr hE
          rw [hi] at hfalse
          exact Bool.noConfusion hfalse
      · intro _
        exact hstep

theorem storeMatchModern_eligibility_witness :
    (7 : Nat) ∉ (⟨[]⟩ : ModernDb).games ∧
    ((storeMatchModern ⟨[]⟩ ⟨2, 100, 200, 300⟩ ⟨400, 4, 7, [1, 2, 3]⟩
        = (⟨[] ++ [7]⟩, 1) ↔
      ((2 : Nat) ≤ [1, 2, 3].length ∧ (100 : Nat) ≤ 400 ∧
        (200 : Nat) ≤ 400 ∧ (300 : Nat) ≤ 400)) ∧
     (([1, 2, 3].length < 2 ∨ (400 : Nat) < 100 ∨
        (400 : Nat) < 200 ∨ (400 : Nat) < 300) →
      storeMatchModern ⟨[]⟩ ⟨2, 100, 200, 300⟩ ⟨400, 4, 7, [1, 2, 3]⟩ = (⟨[]⟩, 0))) :=
  ⟨by decide, storeMatchModern_eligibility ⟨[]⟩ ⟨2, 100, 200, 300⟩ ⟨400, 4, 7, [1, 2, 3]⟩
    (by decide)⟩

/-- C7 counterexample: a cache read that finds a stored blob that fails to
deserialize does not behave as a cache miss: with a corrupt blob present
and an upstream call that would succeed with 42, get_data raises the
deserialization error and performs no upstream call, while the same read
on a missing key returns 42 from one upstream call. -/
theorem get_data_corrupt_counterexample :
    (get_data (some (Blob.corrupt : Blob Nat)) (Except.ok 42)).result
        = Except.error PyError.unpicklingError ∧
    (get_data (some (Blob.corrupt : Blob Nat)) (Except.ok 42)).upstreamCalls = 0 ∧
    (get_data (none : Option (Blob Nat)) (Except.ok 42)).result = Except.ok 42 ∧
    (get_data (none : Option (Blob Nat)) (Except.ok 42)).upstreamCalls = 1 :=
  ⟨rfl, rfl, rfl, rfl⟩

/-- C7 amended: only cache writes fail open (set_data swallows all
exceptions); a cache read that finds a present but undeserializable blob
is not treated as a miss: the deserialization error propagates to the
caller and the value is not re-fetched from upstream (zero upstream
calls), whatever the upstream outcome would have been. The same unguarded
pickle.loads pattern appears in get_data, get_pgcr, get_activity_history
and get_characters. -/
theorem get_data_corrupt_propagates {α : Type} (upstream : Except ExecErr α) :
    get_data (some (Blob.corrupt : Blob α)) upstream
      = ⟨Except.error PyError.unpicklingError, 0⟩ := rfl

/-- Helper for C9: looking up the key just written finds the new blob. -/
theorem find_after_set {α : Type} (entries : List (String × Blob α)) (key : String)
    (b : Blob α) :
    ((entries.filter (fun e => !(e.1 == key))) ++ [(key, b)]).find? (fun e => e.1 == key)
      = some (key, b) := by
  induction entries with
  | nil => simp [List.find?]
  | cons e rest ih =>
      cases h : (e.1 == key) with
      | true =>
          simp only [List.filter_cons, h, Bool.not_true, Bool.false_eq_true, if_false]
          exact ih
      | false =>
          simp only [List.filter_cons, h, Bool.not_false, if_true, List.cons_append,
            List.find?_cons, h]
          exact ih

theorem cacheGet_cacheSet_self {α : Type} (entries : List (String × Blob α)) (key : String)
    (b : Blob α) : cacheGet (cacheSet entries key b) key = some b := by
  unfold cacheGet cacheSet
  rw [find_after_set]
  rfl

/-- C9: the activity-history cache key is derived from the member id only.
With no live entry for the member and an upstream response carrying an
activities list, a first call caches and returns that list, and a second
call for the same member made while the entry is live returns the first
call's cached list unchanged, even though its character id, mode id,
requested count, platform id and even its upstream behaviour all differ. -/
theorem get_activity_history_keyed_by_member_only
    (entries : List (String × Blob (List Nat)))
    (up1 up2 : Nat → Nat → Nat → Nat → Nat → Except ExecErr (Option (List Nat)))
    (p1 p2 memberId c1 c2 m1 m2 n1 n2 : Nat) (acts : List Nat)
    (hMiss : cacheGet entries (activityHistoryKey memberId) = none)
    (hUp : up1 p1 memberId c1 m1 n1 = Except.ok (some acts)) :
    (get_activity_history entries up1 p1 memberId c1 m1 n1).1 = Except.ok (some acts) ∧
    get_activity_history (get_activity_history entries up1 p1 memberId c1 m1 n1).2
        up2 p2 memberId c2 m2 n2
      = (Except.ok (some acts),
          (get_activity_history entries up1 p1 memberId c1 m1 n1).2) := by
  have h1 : get_activity_history entries up1 p1 memberId c1 m1 n1
      = (Except.ok (some acts),
          cacheSet entries (activityHistoryKey memberId) (Blob.pickled acts)) := by
    simp only [get_activity_history, hMiss, hUp]
  have h2 : cacheGet (cacheSet entries (activityHistoryKey memberId) (Blob.pickled acts))
      (activityHistoryKey memberId) = some (Blob.pickled acts) :=
    cacheGet_cacheSet_self entries (activityHistoryKey memberId) (Blob.pickled acts)
  constructor
  · rw [h1]
  · rw [h1]
    simp only [get_activity_history, h2, pickleLoads]

theorem get_activity_history_keyed_by_member_only_witness :
    cacheGet ([] : List (String × Blob (List Nat))) (activityHistoryKey 5) = none ∧
    (fun _ _ _ _ _ => Except.ok (some [11, 12])) 1 5 100 4 30
      = (Except.ok (some [11, 12]) : Except ExecErr (Option (List Nat))) ∧
    ((get_activity_history [] (fun _ _ _ _ _ => Except.ok (some [11, 12])) 1 5 100 4 30).1
        = Except.ok (some [11, 12]) ∧
      get_activity_history
          (get_activity_history [] (fun _ _ _ _ _ => Except.ok (some [11, 12])) 1 5 100 4 30).2
          (fun _ _ _ _ _ => Except.ok none) 2 5 200 63 5
        = (Except.ok (some [11, 12]),
            (get_activity_history []
              (fun _ _ _ _ _ => Except.ok (some [11, 12])) 1 5 100 4 30).2)) :=
  ⟨rfl, rfl,
    get_activity_history_keyed_by_member_only []
      (fun _ _ _ _ _ => Except.ok (some [11, 12])) (fun _ _ _ _ _ => Except.ok none)
      1 2 5 100 200 4 63 30 5 [11, 12] rfl rfl⟩

/-- C2 (code_bug evidence): merging a stored row with completed = true and
time_played = 10 with a new observation reporting completed = false and
time_played = 5 yields time_played = 15 (the sum, as claimed) but
completed = false: the stored true completion flag is set back to false,
contradicting the claim that the flag is true whenever either input flag
is true and that a stored true flag is never downgraded. -/
theorem mergeGameMember_downgrades_completed :
    mergeGameMember ⟨10, true⟩ ⟨5, false⟩ = ⟨15, false⟩ := rfl

end LsdClanBot
